import Mathlib

/-!
Shallow embedding of the LogLens VSCode extension core (src/extension.ts):
the line classifier (level matcher table built in the level-table setup
function, lines 71-128), the highlight pass (applyHighlights, lines 137-162),
the status-bar counting pass (updateStatusBar, lines 164-180), and the tail
engine (tailFile watch callback, lines 246-289; deactivate, lines 301-305).

Lines of text are `List Char`; a JS RegExp `.test` call is embedded as a
Bool-valued predicate over the line.  The three pattern shapes used by the
source are: case-insensitive whole-word search (`\b(A|B|...)\b` with word
characters [A-Za-z0-9_]), case-insensitive substring search (the bracket tags
such as `[ERROR]`), and the key-value patterns `level[=:]"?X"?` whose `.test`
semantics reduce to a substring search for `level` + separator + optional
quote + `X` (the trailing optional parts never affect `.test`).
-/

namespace LogLens

/-- JS regex word character class `\w` = [A-Za-z0-9_]. -/
def isWordChar (c : Char) : Bool :=
  (('a' ≤ c && c ≤ 'z') || ('A' ≤ c && c ≤ 'Z') || ('0' ≤ c && c ≤ '9') || c == '_')

/-- Case folding of a line, used for the `i` regex flag. -/
def lowerList (s : List Char) : List Char := s.map Char.toLower

/-- Occurrence of `pat` as a contiguous block of `line` at some position. -/
def hasBlock (pat line : List Char) : Bool :=
  (List.range (line.length + 1)).any fun i => pat.isPrefixOf (line.drop i)

/-- Case-insensitive substring test: embeds `.test` of a `/literal/i` regex. -/
def substrCI (pat line : List Char) : Bool :=
  hasBlock (lowerList pat) (lowerList line)

/-- Case-insensitive whole-word test: embeds `.test` of `/\bW\b/i`.  The word
must occur at some position with a non-word character (or the line edge) on
both sides. -/
def wordHit (w line : List Char) : Bool :=
  (List.range (line.length + 1)).any fun i =>
    (lowerList w).isPrefixOf ((lowerList line).drop i)
    && (i == 0 || !isWordChar (line.getD (i - 1) ' '))
    && !isWordChar (line.getD (i + w.length) ' ')

/-- Embeds `.test` of the key-value patterns `level[=:]"?w...` (source lines
80, 94, 108, 120): a substring search for `level` + `=` or `:` + an optional
double quote + the base word `w`; the optional suffixes of those regexes
cannot change the `.test` outcome. -/
def kvHit (w line : List Char) : Bool :=
  substrCI ("level=".toList ++ w) line || substrCI ("level:".toList ++ w) line ||
  substrCI ("level=\"".toList ++ w) line || substrCI ("level:\"".toList ++ w) line

/-- ERROR level matcher set (source lines 76-81): whole-word
ERROR/FATAL/CRITICAL/SEVERE, bracket tag, key-value form.  A line matches the
level if any one matcher matches. -/
def errorMatch (line : List Char) : Bool :=
  wordHit "ERROR".toList line || wordHit "FATAL".toList line ||
  wordHit "CRITICAL".toList line || wordHit "SEVERE".toList line ||
  substrCI "[ERROR]".toList line || kvHit "error".toList line

/-- WARN level matcher set (source lines 90-94). -/
def warnMatch (line : List Char) : Bool :=
  wordHit "WARN".toList line || wordHit "WARNING".toList line ||
  substrCI "[WARN]".toList line || substrCI "[WARNING]".toList line ||
  kvHit "warn".toList line

/-- INFO level matcher set (source lines 104-108). -/
def infoMatch (line : List Char) : Bool :=
  wordHit "INFO".toList line || substrCI "[INFO]".toList line ||
  kvHit "info".toList line

/-- DEBUG level matcher set (source lines 116-120). -/
def debugMatch (line : List Char) : Bool :=
  wordHit "DEBUG".toList line || wordHit "TRACE".toList line ||
  wordHit "VERBOSE".toList line || substrCI "[DEBUG]".toList line ||
  kvHit "debug".toList line

/-- The four level names, in the priority order of the level table in the source. -/
inductive LevelName
  | ERROR
  | WARN
  | INFO
  | DEBUG
deriving DecidableEq, Repr

/-- The primary level of a line: the first level of the table (in its
declaration order ERROR, WARN, INFO, DEBUG) whose matcher set matches, or
none. -/
def primaryLevel (line : List Char) : Option LevelName :=
  if errorMatch line then some LevelName.ERROR
  else if warnMatch line then some LevelName.WARN
  else if infoMatch line then some LevelName.INFO
  else if debugMatch line then some LevelName.DEBUG
  else none

/-- The annotation pass of applyHighlights for one level (source lines
141-161): the line numbers of the lines whose text that matcher set matches.
Each level is computed independently of the others. -/
def levelLines (m : List Char → Bool) (lines : List (List Char)) : List Nat :=
  (List.range lines.length).filter fun i => m (lines.getD i [])

/-- The three status-bar counters of updateStatusBar (source lines 166-168).
The source keeps no DEBUG counter. -/
structure Counts where
  errorCount : Nat
  warnCount : Nat
  infoCount : Nat
deriving DecidableEq, Repr

/-- Embeds `.test` of the counting regex `/\b(ERROR|FATAL|CRITICAL)\b/i`
(source line 172).  Note: SEVERE is absent here though present in the matcher set of the
ERROR level. -/
def countErrorHit (line : List Char) : Bool :=
  wordHit "ERROR".toList line || wordHit "FATAL".toList line ||
  wordHit "CRITICAL".toList line

/-- Embeds `.test` of the counting regex `/\b(WARN|WARNING)\b/i` (source
line 173). -/
def countWarnHit (line : List Char) : Bool :=
  wordHit "WARN".toList line || wordHit "WARNING".toList line

/-- Embeds `.test` of the counting regex `/\bINFO\b/i` (source line 174). -/
def countInfoHit (line : List Char) : Bool :=
  wordHit "INFO".toList line

/-- One iteration of the counting loop of updateStatusBar (source lines
170-175): an if / else-if / else-if chain, so at most one counter is
incremented per line, in the order ERROR, WARN, INFO. -/
def countLine (c : Counts) (line : List Char) : Counts :=
  if countErrorHit line then { c with errorCount := c.errorCount + 1 }
  else if countWarnHit line then { c with warnCount := c.warnCount + 1 }
  else if countInfoHit line then { c with infoCount := c.infoCount + 1 }
  else c

/-- The full counting pass of updateStatusBar (source lines 164-180) over the lines
of the document. -/
def updateStatusBar (lines : List (List Char)) : Counts :=
  lines.foldl countLine ⟨0, 0, 0⟩

/-! ## Tail engine

The watch callback of tailFile (source lines 264-282) keeps a tracked offset
`lastSize`; on a change notification it stats the file and compares the new
size with the offset.  File contents are `List Char`; the stat result is the
current contents (so its size is the list length).  The events sent to the
output channel are embedded as `TailEvent`s, and every byte-range read the
callback issues is recorded in `reads` as an (offset, length) pair over `Int`,
so that the sign of a read length is observable. -/

/-- A delta event emitted by the watch callback: the appended bytes, or a
truncation notice (which carries no byte payload, source line 279). -/
inductive TailEvent
  | Appended (payload : List Char)
  | Truncated
deriving DecidableEq, Repr

/-- Result of one watch-callback run: the events emitted, the new tracked
offset, and the byte-range reads performed (offset, length). -/
structure ChangeResult where
  events : List TailEvent
  newOffset : Nat
  reads : List (Int × Int)
deriving DecidableEq, Repr

/-- The change branch of the watch callback (source lines 265-281): if the
size grew, read exactly (size - lastSize) bytes starting at lastSize and emit
them; if it shrank, emit a truncation notice and reset the offset; otherwise
do nothing. -/
def onChange (lastSize : Nat) (content : List Char) : ChangeResult :=
  if lastSize < content.length then
    { events := [TailEvent.Appended ((content.drop lastSize).take (content.length - lastSize))],
      newOffset := content.length,
      reads := [((lastSize : Int), (content.length : Int) - (lastSize : Int))] }
  else if content.length < lastSize then
    { events := [TailEvent.Truncated], newOffset := content.length, reads := [] }
  else
    { events := [], newOffset := lastSize, reads := [] }

/-- The failure the spec calls TailIOError: statSync throwing inside the
watch callback. -/
inductive TailErr
  | ioError
deriving DecidableEq, Repr

/-- A tail registry state: the tailWatchers Map (source line 12) as an
insertion-ordered association list from file path to watcher handle id. -/
abbrev Registry := List (String × Nat)

/-- Map.has of tailWatchers. -/
def mapHas (reg : Registry) (p : String) : Bool :=
  reg.any fun e => decide (e.1 = p)

/-- Map.delete of tailWatchers: removes the entry for the key. -/
def mapDelete (reg : Registry) (p : String) : Registry :=
  reg.filter fun e => !decide (e.1 = p)

/-- Map.set of tailWatchers: replaces the value if the key is present,
appends a new entry otherwise. -/
def mapSet (reg : Registry) (p : String) (w : Nat) : Registry :=
  if mapHas reg p then reg.map (fun e => if e.1 = p then (p, w) else e)
  else reg ++ [(p, w)]

/-- The registry effect of one tailFile command invocation (source lines
253-288): toggle semantics.  If a watcher exists for the path it is closed
and removed; otherwise a fresh watcher `w` is registered. -/
def tailFile (reg : Registry) (p : String) (w : Nat) : Registry :=
  if mapHas reg p then mapDelete reg p
  else mapSet reg p w

/-- The whole watch callback at registry level (source lines 264-282): stat
the file, then run the change branch.  A stat result of `none` means the file
was deleted or became unreadable, in which case statSync throws: the callback
body never runs, and neither the tracked offset nor the tailWatchers map is
touched (the source has no try/catch in the callback and the callback never
mutates tailWatchers). -/
def onWatchEvent (reg : Registry) (lastSize : Nat) (statResult : Option (List Char)) :
    Except TailErr ChangeResult × Nat × Registry :=
  match statResult with
  | none => (Except.error TailErr.ioError, lastSize, reg)
  | some content =>
      let r := onChange lastSize content
      (Except.ok r, r.newOffset, reg)

/-- Registry states reachable from extension startup (empty map) through
tailFile command invocations. -/
inductive Reachable : Registry → Prop
  | init : Reachable []
  | step (r : Registry) (p : String) (w : Nat) : Reachable r → Reachable (tailFile r p w)

/-! ## Teardown

deactivate (source lines 301-305) runs `tailWatchers.forEach(w => w.close())`
then `tailWatchers.clear()`.  Closing a watcher may throw; whether handle `w`
throws is given by a function `closeFails`.  There is no try/catch: a throw
inside forEach aborts the iteration and skips the clear. -/

/-- Outcome of deactivate: which handles were actually closed (in map order),
whether a close threw, and the final contents of tailWatchers. -/
structure TeardownResult where
  closed : List Nat
  threw : Bool
  finalMap : Registry
deriving DecidableEq, Repr

/-- The forEach close loop: closes handles in order until one throws. -/
def closeLoop (closeFails : Nat → Bool) : Registry → List Nat → List Nat × Bool
  | [], acc => (acc, false)
  | e :: rest, acc =>
      if closeFails e.2 then (acc, true)
      else closeLoop closeFails rest (acc ++ [e.2])

/-- deactivate (source lines 301-303): forEach-close every watcher, then
clear the map; an uncaught throw aborts the loop and leaves the map as it
was. -/
def deactivate (closeFails : Nat → Bool) (reg : Registry) : TeardownResult :=
  match closeLoop closeFails reg [] with
  | (cl, th) => { closed := cl, threw := th, finalMap := if th then reg else [] }

/-! ## Helper lemmas -/

theorem onChange_append (o : Nat) (f b : List Char) (hf : f.length = o) (hb : 0 < b.length) :
    onChange o (f ++ b)
      = ⟨[TailEvent.Appended b], o + b.length, [((o : Int), (b.length : Int))]⟩ := by
  subst hf
  have h1 : f.length < (f ++ b).length := by
    rw [List.length_append]; omega
  have h2 : (f ++ b).drop f.length = b := List.drop_left f b
  simp only [onChange, if_pos h1, List.length_append, h2, Nat.add_sub_cancel_left,
    List.take_length, ChangeResult.mk.injEq, List.cons.injEq, Prod.mk.injEq, and_true,
    true_and]
  push_cast
  have h3 : f.length < f.length + b.length := by omega
  rw [if_pos h3]
  have h4 : ((f.length : Int) + (b.length : Int) - (f.length : Int)) = (b.length : Int) := by
    ring
  rw [h4]

theorem onChange_trunc (o : Nat) (c : List Char) (h : c.length < o) :
    onChange o c = ⟨[TailEvent.Truncated], c.length, []⟩ := by
  unfold onChange
  rw [if_neg (by omega), if_pos h]

theorem onChange_noop (o : Nat) (c : List Char) (h : c.length = o) :
    onChange o c = ⟨[], o, []⟩ := by
  unfold onChange
  rw [if_neg (by omega), if_neg (by omega)]

theorem countErrorHit_imp (line : List Char) (h : countErrorHit line = true) :
    errorMatch line = true := by
  simp only [countErrorHit, Bool.or_eq_true] at h
  simp only [errorMatch, Bool.or_eq_true]
  tauto

theorem countWarnHit_imp (line : List Char) (h : countWarnHit line = true) :
    warnMatch line = true := by
  simp only [countWarnHit, Bool.or_eq_true] at h
  simp only [warnMatch, Bool.or_eq_true]
  tauto

theorem countInfoHit_imp (line : List Char) (h : countInfoHit line = true) :
    infoMatch line = true := by
  simp only [countInfoHit] at h
  simp only [infoMatch, Bool.or_eq_true]
  tauto

theorem mapHas_false_iff (r : Registry) (p : String) :
    mapHas r p = false ↔ ∀ e ∈ r, e.1 ≠ p := by
  simp [mapHas]

theorem mapHas_mapDelete (r : Registry) (p : String) :
    mapHas (mapDelete r p) p = false := by
  rw [mapHas_false_iff]
  intro e he
  have := (List.mem_filter.mp he).2
  simpa using this

theorem mapDelete_of_not_has (r : Registry) (p : String) (h : mapHas r p = false) :
    mapDelete r p = r := by
  apply List.filter_eq_self.mpr
  intro e he
  have := (mapHas_false_iff r p).mp h e he
  simpa using this

theorem keys_nodup_tailFile (r : Registry) (p : String) (w : Nat)
    (h : (r.map Prod.fst).Nodup) : ((tailFile r p w).map Prod.fst).Nodup := by
  unfold tailFile
  by_cases hp : mapHas r p = true
  · rw [if_pos hp]
    exact h.sublist ((List.filter_sublist r).map Prod.fst)
  · have hp' : mapHas r p = false := by
      cases hq : mapHas r p
      · rfl
      · exact absurd hq hp
    rw [if_neg (by simp [hp']), mapSet, if_neg (by simp [hp'])]
    have hnp : p ∉ r.map Prod.fst := by
      intro hmem
      obtain ⟨e, he, hfst⟩ := List.mem_map.mp hmem
      exact (mapHas_false_iff r p).mp hp' e he hfst
    simp [List.nodup_append, h, hnp]

theorem closeLoop_ok (cf : Nat → Bool) (r : Registry) :
    ∀ (acc : List Nat), (∀ e ∈ r, cf e.2 = false) →
      closeLoop cf r acc = (acc ++ r.map Prod.snd, false) := by
  induction r with
  | nil => intro acc _; simp [closeLoop]
  | cons e rest ih =>
      intro acc h
      have he : cf e.2 = false := h e (List.mem_cons_self e rest)
      rw [closeLoop, if_neg (by simp [he]),
        ih (acc ++ [e.2]) (fun x hx => h x (List.mem_cons_of_mem e hx))]
      simp

/-! ## Claim theorems -/

/-- C1, counterexample: the line "2024 SEVERE overload" has primary level
ERROR under the full matcher table of the ERROR level (it contains the whole word
SEVERE), yet the counting pass of updateStatusBar increments no counter at
all, because its counting regex is `\b(ERROR|FATAL|CRITICAL)\b` without
SEVERE.  This refutes the claim that every ERROR-primary line increments the
ERROR counter. -/
theorem C1_cex :
    primaryLevel "2024 SEVERE overload".toList = some LevelName.ERROR
    ∧ countLine ⟨0, 0, 0⟩ "2024 SEVERE overload".toList = ⟨0, 0, 0⟩ := by decide

/-- C1, amended: every line matching the counting regex
`\b(ERROR|FATAL|CRITICAL)\b` (case-insensitive) has primary level ERROR and
gets exactly the ERROR counter incremented by the counting pass, leaving the
WARN and INFO counters untouched.  Lines whose primary level is ERROR only
through matchers absent from the counting regex (the whole word SEVERE, or a
key-value form with no whole-word occurrence such as "level=errors") do not
increment the ERROR counter — the chain may instead fall through and count
them as WARN or INFO when their text also matches those counting regexes;
bracket-tag lines like "[ERROR] x" still count as ERROR because they contain
the whole word. -/
theorem C1_amended_counted_error (c : Counts) (line : List Char)
    (h : countErrorHit line = true) :
    primaryLevel line = some LevelName.ERROR
    ∧ countLine c line = { c with errorCount := c.errorCount + 1 } := by
  have he : errorMatch line = true := countErrorHit_imp line h
  constructor
  · simp [primaryLevel, he]
  · simp [countLine, h]

/-- Witness for C1 amended: a bracket-tag ERROR line is counted. -/
theorem C1_witness :
    primaryLevel "[ERROR] disk fail".toList = some LevelName.ERROR
    ∧ countLine ⟨0, 0, 0⟩ "[ERROR] disk fail".toList = ⟨1, 0, 0⟩ := by
  have h := C1_amended_counted_error ⟨0, 0, 0⟩ "[ERROR] disk fail".toList (by decide)
  exact ⟨h.1, h.2.trans (by decide)⟩

/-- C2, counterexample: the counting pass of updateStatusBar has no DEBUG
counter (it keeps only errorCount, warnCount, infoCount, source lines
166-168): a document consisting of one DEBUG-primary line produces exactly
the counts of the empty document, so no counter records the DEBUG line,
refuting the claim that a DEBUG-primary line increments a DEBUG counter. -/
theorem C2_cex :
    primaryLevel "2024 DEBUG cache warmup".toList = some LevelName.DEBUG
    ∧ updateStatusBar ["2024 DEBUG cache warmup".toList] = updateStatusBar [] := by
  decide

/-- C2, amended: the counting pass returns counters for ERROR, WARN and INFO
only; a line whose primary level is DEBUG leaves the counts completely
unchanged, and for the document "2024 ERROR db down\n2024 INFO ok\n" (lines
"2024 ERROR db down", "2024 INFO ok", "" under the line splitting of the editor)
the returned counts are ERROR: 1, WARN: 0, INFO: 1. -/
theorem C2_amended_counts :
    (∀ (c : Counts) (line : List Char),
        primaryLevel line = some LevelName.DEBUG → countLine c line = c)
    ∧ updateStatusBar ["2024 ERROR db down".toList, "2024 INFO ok".toList, []]
        = ⟨1, 0, 1⟩ := by
  constructor
  · intro c line h
    have he : errorMatch line = false := by
      cases hq : errorMatch line
      · rfl
      · simp [primaryLevel, hq] at h
    have hw : warnMatch line = false := by
      cases hq : warnMatch line
      · rfl
      · simp [primaryLevel, he, hq] at h
    have hi : infoMatch line = false := by
      cases hq : infoMatch line
      · rfl
      · simp [primaryLevel, he, hw, hq] at h
    have hce : countErrorHit line = false := by
      cases hq : countErrorHit line
      · rfl
      · exact absurd (countErrorHit_imp line hq) (by simp [he])
    have hcw : countWarnHit line = false := by
      cases hq : countWarnHit line
      · rfl
      · exact absurd (countWarnHit_imp line hq) (by simp [hw])
    have hci : countInfoHit line = false := by
      cases hq : countInfoHit line
      · rfl
      · exact absurd (countInfoHit_imp line hq) (by simp [hi])
    simp [countLine, hce, hcw, hci]
  · decide

/-- Witness for C2 amended: a DEBUG-primary line leaves arbitrary counts
unchanged. -/
theorem C2_witness :
    countLine ⟨4, 5, 6⟩ "2024 DEBUG cache miss".toList = ⟨4, 5, 6⟩ :=
  C2_amended_counts.1 ⟨4, 5, 6⟩ "2024 DEBUG cache miss".toList (by decide)

/-- C3, counterexample: the file becomes unreadable between the change
notification and the read (stat result none) for the session on path "a":
the read fails, yet the session is still registered afterwards — it is not
moved to Inactive and not removed, refuting the claim that a failed read
forcibly stops the session.  The watch callback in the source has no
try/catch and never mutates tailWatchers. -/
theorem C3_cex :
    onWatchEvent [("a", 1)] 5 none = (Except.error TailErr.ioError, 5, [("a", 1)])
    ∧ mapHas [("a", 1)] "a" = true :=
  ⟨rfl, by decide⟩

/-- C3, amended: if the file is deleted or becomes unreadable between a
change notification and the read, statSync throws and the exception leaves
the watch callback uncaught; no error value is delivered to the adapter, the
session is NOT stopped (the registry is returned exactly as it was, so in
particular every other session is unaffected), and the tracked offset is
unchanged. -/
theorem C3_amended_error_propagates (reg : Registry) (o : Nat) :
    onWatchEvent reg o none = (Except.error TailErr.ioError, o, reg) := rfl

/-- C4: for an active tail session with tracked offset o, a change
notification observing the file grown from f (with f.length = o) to f ++ b
yields exactly one Appended event whose payload is exactly the appended
bytes b, obtained by a single byte-range read of b.length bytes starting at
offset o (not a full-file re-read), and the tracked offset becomes
o + b.length. -/
theorem C4_append_delta (o : Nat) (f b : List Char) (hf : f.length = o)
    (hb : 0 < b.length) :
    onChange o (f ++ b)
      = ⟨[TailEvent.Appended b], o + b.length, [((o : Int), (b.length : Int))]⟩ :=
  onChange_append o f b hf hb

/-- Witness for C4: appending "de" to "abc" at offset 3. -/
theorem C4_witness :
    onChange 3 ("abc".toList ++ "de".toList)
      = ⟨[TailEvent.Appended "de".toList], 5, [(3, 2)]⟩ :=
  (C4_append_delta 3 "abc".toList "de".toList (by decide) (by decide)).trans (by decide)

/-- C5: for an active tail session with tracked offset o, a change
notification observing file contents c with c.length < o yields exactly one
Truncated event with no byte payload, performs no read at all (in particular
never a negative-length read), and resets the tracked offset to c.length; a
subsequent append of b then yields one Appended event of payload exactly b
(length b.length, not b.length plus the previous overhang). -/
theorem C5_truncate_then_append (o : Nat) (c b : List Char) (hc : c.length < o)
    (hb : 0 < b.length) :
    onChange o c = ⟨[TailEvent.Truncated], c.length, []⟩
    ∧ onChange c.length (c ++ b)
        = ⟨[TailEvent.Appended b], c.length + b.length,
           [((c.length : Int), (b.length : Int))]⟩ :=
  ⟨onChange_trunc o c hc, onChange_append c.length c b rfl hb⟩

/-- Witness for C5: truncation from offset 5 to "ab", then appending "xyz". -/
theorem C5_witness :
    onChange 5 "ab".toList = ⟨[TailEvent.Truncated], 2, []⟩
    ∧ onChange 2 ("ab".toList ++ "xyz".toList)
        = ⟨[TailEvent.Appended "xyz".toList], 5, [(2, 3)]⟩ := by
  have h := C5_truncate_then_append 5 "ab".toList "xyz".toList (by decide) (by decide)
  exact ⟨h.1.trans (by decide), h.2.trans (by decide)⟩

/-- C6, counterexample: the line "verbose TRACE dump" has primary level DEBUG
under the matcher table, but the counting pass of updateStatusBar assigns it
to no counter at all (its if / else-if chain tests only the ERROR, WARN and
INFO counting regexes), refuting the claim that counting assigns every line
to its single highest-priority primary level with DEBUG last. -/
theorem C6_cex :
    primaryLevel "verbose TRACE dump".toList = some LevelName.DEBUG
    ∧ countLine ⟨0, 0, 0⟩ "verbose TRACE dump".toList = ⟨0, 0, 0⟩ := by decide

/-- C6, amended: classification has dual semantics.  Annotation tests each
level independently, so one line can be in several match sets at once (the
line "INFO: retrying after ERROR" is in both the INFO and the ERROR match
sets); counting is exclusive — every line increments at most one of the
ERROR, WARN, INFO counters, chosen by first match in the order ERROR, WARN,
INFO over the counting regexes (the example line goes to ERROR, the
higher-priority level) — but counting uses its own regex chain with no DEBUG
case, so a line whose primary level is DEBUG is uncounted rather than
assigned to DEBUG. -/
theorem C6_amended_dual_semantics :
    (infoMatch "INFO: retrying after ERROR".toList = true
      ∧ errorMatch "INFO: retrying after ERROR".toList = true)
    ∧ (∀ (c : Counts) (line : List Char),
        countLine c line = c
        ∨ countLine c line = { c with errorCount := c.errorCount + 1 }
        ∨ countLine c line = { c with warnCount := c.warnCount + 1 }
        ∨ countLine c line = { c with infoCount := c.infoCount + 1 })
    ∧ countLine ⟨0, 0, 0⟩ "INFO: retrying after ERROR".toList = ⟨1, 0, 0⟩ := by
  refine ⟨by decide, ?_, by decide⟩
  intro c line
  by_cases h1 : countErrorHit line = true
  · right; left; simp [countLine, h1]
  · by_cases h2 : countWarnHit line = true
    · right; right; left; simp [countLine, h1, h2]
    · by_cases h3 : countInfoHit line = true
      · right; right; right; simp [countLine, h1, h2, h3]
      · left; simp [countLine, h1, h2, h3]

/-- C7: toggle is its own inverse on the registry state.  Starting from a
registry with no session for path p, one tailFile invocation registers a
session (the state passes through Active) and a second invocation removes
it, returning the registry to exactly its original state. -/
theorem C7_toggle_self_inverse (r : Registry) (p : String) (w w' : Nat)
    (h : mapHas r p = false) :
    mapHas (tailFile r p w) p = true ∧ tailFile (tailFile r p w) p w' = r := by
  have hset : tailFile r p w = r ++ [(p, w)] := by
    unfold tailFile
    rw [if_neg (by simp [h])]
    unfold mapSet
    rw [if_neg (by simp [h])]
  have hhas : mapHas (r ++ [(p, w)]) p = true := by
    simp [mapHas]
  refine ⟨hset ▸ hhas, ?_⟩
  rw [hset]
  unfold tailFile
  rw [if_pos hhas]
  unfold mapDelete
  rw [List.filter_append]
  have h1 : List.filter (fun e => !decide (e.1 = p)) [(p, w)] = [] := by simp
  rw [h1, List.append_nil]
  exact mapDelete_of_not_has r p h

/-- Witness for C7: toggling path "a" twice on the empty registry. -/
theorem C7_witness :
    mapHas (tailFile [] "a" 1) "a" = true
    ∧ tailFile (tailFile [] "a" 1) "a" 2 = [] :=
  C7_toggle_self_inverse [] "a" 1 2 (by decide)

/-- C8: at every reachable registry state the keys are pairwise distinct, so
at most one session exists per path; and invoking the tail command for a path
that already has an active session removes that session (toggle semantics:
the result is exactly the deletion of the path, after which no session for
the path exists), never creating a second concurrent session. -/
theorem C8_at_most_one_session (r : Registry) (hr : Reachable r) :
    (r.map Prod.fst).Nodup
    ∧ ∀ p w, mapHas r p = true →
        tailFile r p w = mapDelete r p ∧ mapHas (tailFile r p w) p = false := by
  refine ⟨?_, ?_⟩
  · induction hr with
    | init => simp
    | step r p w _ ih => exact keys_nodup_tailFile r p w ih
  · intro p w hp
    have ht : tailFile r p w = mapDelete r p := by
      unfold tailFile
      rw [if_pos hp]
    exact ⟨ht, ht ▸ mapHas_mapDelete r p⟩

/-- Witness for C8 at the reachable state obtained by one toggle of "a". -/
theorem C8_witness :
    ((tailFile [] "a" 1).map Prod.fst).Nodup
    ∧ tailFile (tailFile [] "a" 1) "a" 2 = mapDelete (tailFile [] "a" 1) "a"
    ∧ mapHas (tailFile (tailFile [] "a" 1) "a" 2) "a" = false := by
  have h := C8_at_most_one_session (tailFile [] "a" 1)
    (Reachable.step [] "a" 1 Reachable.init)
  exact ⟨h.1, (h.2 "a" 2 (by decide)).1, (h.2 "a" 2 (by decide)).2⟩

/-- C9: for an active tail session, a change notification observing a file
size equal to the tracked offset emits no event (neither Appended nor
Truncated), performs no read, and leaves the tracked offset unchanged; since
start records the current file size as the offset (source line 262),
start followed immediately by a size-unchanged change notification yields no
delta event. -/
theorem C9_no_event_when_size_unchanged (o : Nat) (c : List Char)
    (h : c.length = o) :
    onChange o c = ⟨[], o, []⟩ :=
  onChange_noop o c h

/-- Witness for C9: file "abcd" at tracked offset 4. -/
theorem C9_witness : onChange 4 "abcd".toList = ⟨[], 4, []⟩ :=
  C9_no_event_when_size_unchanged 4 "abcd".toList (by decide)

/-- C10, counterexample: two active watchers, and closing the first one
throws: deactivate closes nothing further — the second handle (2), although
registered, is never closed — and the mapping is not cleared, refuting the
claim that the remaining closes are still performed and the mapping still
cleared when one close fails.  The forEach/clear pair in the source has no
try/catch. -/
theorem C10_cex :
    deactivate (fun w => w == 1) [("a", 1), ("b", 2)]
      = ⟨[], true, [("a", 1), ("b", 2)]⟩
    ∧ (2 : Nat) ∈ ([("a", 1), ("b", 2)] : Registry).map Prod.snd := by decide

/-- C10, amended: when no close fails, teardown closes every active watch
handle, in map order, before the path-to-session mapping is cleared; but a
single failing close aborts the remaining closes and skips the clear (the
loop is not resilient to individual failures). -/
theorem C10_amended_teardown (cf : Nat → Bool) (reg : Registry)
    (h : ∀ e ∈ reg, cf e.2 = false) :
    deactivate cf reg = ⟨reg.map Prod.snd, false, []⟩ := by
  unfold deactivate
  rw [closeLoop_ok cf reg [] h]
  simp

/-- Witness for C10 amended: two watchers whose closes succeed. -/
theorem C10_witness :
    deactivate (fun _ => false) [("a", 1), ("b", 2)] = ⟨[1, 2], false, []⟩ := by
  have h := C10_amended_teardown (fun _ => false) [("a", 1), ("b", 2)] (by decide)
  exact h.trans (by decide)

end LogLens
